import Mathlib

/-!
Verification of the apt-mirror mirroring engine (src/apt-mirror.py) against its
natural-language specification.  The Python source is shallowly embedded:
strings are lists of characters (`Str`), the anchored regular expressions used
by the source are translated into deterministic character-list functions, and
the stateful methods of the `AptMirror` class become explicit state-passing
functions over `MirrorState`.  Network and filesystem effects are abstracted
into oracle arguments (per-attempt HTTP outcomes, file presence/size/digest
facts) so that the control flow of the source is preserved exactly.
-/

namespace AptMirror

/-- Strings of the embedded program: Python `str` values as character lists. -/
abbrev Str := List Char

/-- Python `str.isspace`-style whitespace recognised by `str.strip()`
(ASCII fragment: space, tab, newline, carriage return, vertical tab, form feed). -/
def pyIsSpace (c : Char) : Bool :=
  c == ' ' || c == '\t' || c == '\n' || c == '\r' || c == '\x0b' || c == '\x0c'

/-- Leading-whitespace strip, the first half of Python `str.strip()`. -/
def lstrip (l : Str) : Str := l.dropWhile pyIsSpace

/-- Trailing-whitespace strip, the second half of Python `str.strip()`. -/
def rstrip (l : Str) : Str := (l.reverse.dropWhile pyIsSpace).reverse

/-- Python `str.strip()`: drop whitespace from both ends. -/
def pyStrip (l : Str) : Str := rstrip (lstrip l)

/-- Whether the first character of `l` is exactly `c`
(Python `line.startswith(c)` for a one-character needle). -/
def headIsChar (c : Char) : Str → Bool
  | [] => false
  | d :: _ => d == c

/-- Whether `l` begins with a whitespace character. -/
def headSpace : Str → Bool
  | [] => false
  | c :: _ => pyIsSpace c

/-- Split on a separator character, Python `content.split(sep)`:
empty pieces are kept, and the empty string yields `[[]]`. -/
def splitOnChar (c : Char) : Str → List Str
  | [] => [[]]
  | x :: xs =>
    let r := splitOnChar c xs
    if x = c then [] :: r
    else
      match r with
      | [] => [[x]]
      | y :: ys => (x :: y) :: ys

/-- Helper for `pySplit`: accumulates the current word (reversed). -/
def pySplitAux : Str → Str → List Str
  | [], acc => if acc.isEmpty then [] else [acc.reverse]
  | c :: cs, acc =>
    if pyIsSpace c then
      if acc.isEmpty then pySplitAux cs [] else acc.reverse :: pySplitAux cs []
    else pySplitAux cs (c :: acc)

/-- Python `str.split()` with no argument: split on runs of whitespace,
discarding empty pieces. -/
def pySplit (l : Str) : List Str := pySplitAux l []

/-- Python `int(s)` on a plain decimal numeral (the only inputs the source
feeds it); a non-numeral yields `none` where Python would raise `ValueError`. -/
def natOfDigits (l : Str) : Option Nat :=
  if l.isEmpty then none
  else if l.all Char.isDigit then
    some (l.foldl (fun n c => n * 10 + (c.toNat - 48)) 0)
  else none

/-- A regex word character `\w` (ASCII fragment): letters, digits, underscore. -/
def isWordChar (c : Char) : Bool := c.isAlphanum || c == '_'

/-- Whether the anchored pattern of `re.sub(r'^\w+://', '', uri)` matches `l`:
a non-empty leading run of word characters followed immediately by `://`. -/
def schemeMatch (l : Str) : Bool :=
  let w := l.takeWhile isWordChar
  !w.isEmpty && ((l.drop w.length).take 3 == [':', '/', '/'])

/-- Effect of `re.sub(r'^\w+://', '', uri)`: drop the scheme prefix when the
anchored pattern matches, otherwise leave the string unchanged. -/
def stripScheme (l : Str) : Str :=
  if schemeMatch l then l.drop ((l.takeWhile isWordChar).length + 3) else l

/-- Whether the anchored pattern of `re.sub(r'^[^@]+@', '', uri)` matches `l`:
at least one leading non-`@` character followed by an `@`. -/
def authMatch : Str → Bool
  | [] => false
  | c :: cs => !(c == '@') && cs.contains '@'

/-- Effect of `re.sub(r'^[^@]+@', '', uri)`: remove everything up to and
including the first `@` when the anchored pattern matches. -/
def stripAuth (l : Str) : Str :=
  if authMatch l then (l.dropWhile (fun c => !(c == '@'))).drop 1 else l

/-- Python `uri.replace('~', '%7E')`. -/
def tildeRepl : Str → Str
  | [] => []
  | c :: cs => if c = '~' then '%' :: '7' :: 'E' :: tildeRepl cs else c :: tildeRepl cs

/-- `AptMirror._sanitize_uri` (lines 552-567): strip the scheme, strip the
userinfo, and percent-encode `~` when the `_tilde` option is set. -/
def sanitizeUri (tilde : Bool) (uri : Str) : Str :=
  let u1 := stripScheme uri
  let u2 := stripAuth u1
  if tilde then tildeRepl u2 else u2

/-- Helper for `collapseSlashes`: the flag records whether the previously
emitted character was a `/`, so each maximal run of slashes yields one `/`
(the effect of `re.sub(r'/+', '/', path)`). -/
def collapseAux : Bool → Str → Str
  | _, [] => []
  | prevSlash, c :: rest =>
    if c = '/' then
      if prevSlash then collapseAux true rest
      else '/' :: collapseAux true rest
    else c :: collapseAux false rest

/-- Effect of `re.sub(r'/+', '/', path)`: each run of slashes becomes one. -/
def collapseSlashes (l : Str) : Str := collapseAux false l

/-- `AptMirror._remove_double_slashes` (lines 569-584): collapse slash runs,
then `re.sub(r'^(\w+://)', r'\1', path)` — which replaces a scheme match by
the very text it captured and is therefore the identity — then the optional
tilde encoding. -/
def removeDoubleSlashes (tilde : Bool) (path : Str) : Str :=
  let p1 := collapseSlashes path
  let p2 := p1
  if tilde then tildeRepl p2 else p2

/-- `posixpath.dirname` as used via `os.path.dirname`: everything up to the
last `/`, with trailing slashes stripped unless the head is all slashes. -/
def dirname (l : Str) : Str :=
  let tailLen := (l.reverse.takeWhile (fun c => !(c == '/'))).length
  let head := l.take (l.length - tailLen)
  if head.isEmpty then []
  else if head.all (fun c => c == '/') then head
  else (head.reverse.dropWhile (fun c => c == '/')).reverse

/-- `class HashType(Enum)` (lines 50-60): supported hash types in order of
strength. -/
inductive HashType
  | SHA512
  | SHA256
  | SHA1
  | MD5Sum
deriving DecidableEq, Repr

/-- The `.value` attribute of each `HashType` member. -/
def HashType.valueStr : HashType → Str
  | .SHA512 => "SHA512".toList
  | .SHA256 => "SHA256".toList
  | .SHA1 => "SHA1".toList
  | .MD5Sum => "MD5Sum".toList

/-- The fixed strongest-to-weakest order `hash_strength` (line 1029). -/
def hashStrength : List HashType := [.SHA512, .SHA256, .SHA1, .MD5Sum]

/-- `@dataclass DownloadTask` (lines 182-210). -/
structure DownloadTask where
  url : Str
  size : Nat := 0
  hash_type : Option HashType := none
  hashsum : Option Str := none
  canonical_path : Option Str := none
  hash_path : Option Str := none
  stage : Str := "archive".toList
deriving DecidableEq, Repr

/-- The mutable tables of the `AptMirror` object that the enqueueing code
touches: `skip_clean`, `download_queue`, and the two alias multimaps
`hashsum_to_files` / `file_to_hashsums` (entries are newest-first; Python
appends to per-key lists of a `defaultdict(list)`, modelled as pair entries). -/
structure MirrorState where
  skip_clean : List Str
  download_queue : List DownloadTask
  hashsum_to_files : List (Str × Str)
  file_to_hashsums : List (Str × Str)
deriving DecidableEq, Repr

/-- The empty engine state. -/
def mirrorState0 : MirrorState := ⟨[], [], [], []⟩

/-- `AptMirror._add_url_to_download` (lines 858-913).  Python truthiness of
`hashsum` (a string or `None`) and `strongest_hash` (an enum member or
`None`) governs the by-hash branch; `hash_type.value if hash_type else
strongest_hash.value` picks the directory algorithm; `hash_type ==
strongest_hash` picks between the by-hash download and the weaker-alias
bookkeeping. -/
def addUrlToDownload (tilde : Bool) (st : MirrorState) (url : Str) (size : Nat)
    (strongest_hash : Option HashType) (hash_type : Option HashType)
    (hashsum : Option Str) : MirrorState :=
  let url1 := removeDoubleSlashes tilde url
  let canonical_path := sanitizeUri tilde url1
  let st1 : MirrorState := { st with skip_clean := canonical_path :: st.skip_clean }
  match hashsum, strongest_hash with
  | some hs, some sh =>
    if hs.isEmpty then
      { st1 with download_queue :=
          { url := url1, size := size, canonical_path := some canonical_path,
            stage := "archive".toList } :: st1.download_queue }
    else
      let algo := hash_type.getD sh
      let hash_dir := "by-hash/".toList ++ algo.valueStr
      let hash_url := dirname url1 ++ ['/'] ++ hash_dir ++ ['/'] ++ hs
      let hash_path := dirname canonical_path ++ ['/'] ++ hash_dir ++ ['/'] ++ hs
      let st2 : MirrorState := { st1 with skip_clean := hash_path :: st1.skip_clean }
      if hash_type = some sh then
        { st2 with
            hashsum_to_files := (hash_path, canonical_path) :: st2.hashsum_to_files,
            download_queue :=
              { url := hash_url, size := size, hash_type := hash_type,
                hashsum := some hs, canonical_path := some canonical_path,
                hash_path := some hash_path,
                stage := "archive".toList } :: st2.download_queue }
      else
        { st2 with file_to_hashsums := (canonical_path, hash_path) :: st2.file_to_hashsums }
  | some _, none =>
    { st1 with download_queue :=
        { url := url1, size := size, canonical_path := some canonical_path,
          stage := "archive".toList } :: st1.download_queue }
  | none, _ =>
    { st1 with download_queue :=
        { url := url1, size := size, canonical_path := some canonical_path,
          stage := "archive".toList } :: st1.download_queue }

/-- The canonical path `_add_url_to_download` computes for a URL:
`_sanitize_uri(_remove_double_slashes(url))` (lines 883-884). -/
def canonicalOf (tilde : Bool) (url : Str) : Str :=
  sanitizeUri tilde (removeDoubleSlashes tilde url)

/-- The by-hash local path `_add_url_to_download` computes:
`os.path.dirname(canonical_path) + "/by-hash/<algo>/<hashsum>"` (line 891). -/
def hashPathOf (tilde : Bool) (url : Str) (algo : HashType) (hs : Str) : Str :=
  dirname (canonicalOf tilde url) ++ ['/'] ++ ("by-hash/".toList ++ algo.valueStr) ++ ['/'] ++ hs

/-- The by-hash URL `_add_url_to_download` computes:
`os.path.dirname(url) + "/by-hash/<algo>/<hashsum>"` (line 890). -/
def hashUrlOf (tilde : Bool) (url : Str) (algo : HashType) (hs : Str) : Str :=
  dirname (removeDoubleSlashes tilde url) ++ ['/'] ++ ("by-hash/".toList ++ algo.valueStr) ++ ['/'] ++ hs

/-- One file record of `result['files']` built by `_parse_release_content`. -/
structure ReleaseFileInfo where
  filename : Str
  size : Nat
  hash_type : HashType
  hashsum : Str
deriving DecidableEq, Repr

/-- The `result` dictionary of `_parse_release_content`: `hashes` maps each
recognised algorithm to its per-filename `(hashsum, size)` dictionary. -/
structure ReleaseResult where
  hashes : List (HashType × List (Str × (Str × Nat)))
  acquire_by_hash : Bool
  files : List ReleaseFileInfo
deriving DecidableEq, Repr

/-- Dictionary assignment `d[k] = v` for the outer `hashes` dictionary. -/
def dictSetHash (hs : List (HashType × List (Str × (Str × Nat)))) (ht : HashType)
    (v : List (Str × (Str × Nat))) : List (HashType × List (Str × (Str × Nat))) :=
  (ht, v) :: hs.filter (fun p => !(p.1 == ht))

/-- Dictionary lookup `d[k]` for the outer `hashes` dictionary (default `{}`). -/
def dictGetHash (hs : List (HashType × List (Str × (Str × Nat)))) (ht : HashType) :
    List (Str × (Str × Nat)) :=
  ((hs.find? (fun p => p.1 == ht)).map (fun p => p.2)).getD []

/-- Dictionary assignment `d[filename] = v` for a per-algorithm dictionary. -/
def dictSetFile (entries : List (Str × (Str × Nat))) (k : Str) (v : Str × Nat) :
    List (Str × (Str × Nat)) :=
  (k, v) :: entries.filter (fun p => !(p.1 == k))

/-- The body of the `if current_hash and line.startswith(' ')` branch of
`_parse_release_content` (lines 1046-1059): split the line on whitespace and,
when it is a three-part tuple, record it in `hashes` and append it to
`files`. -/
def tupleUpdate (cur : Option HashType) (res : ReleaseResult) (line : Str) : ReleaseResult :=
  match cur with
  | none => res
  | some ht =>
    match pySplit line with
    | [hs, sz, fn] =>
      match natOfDigits sz with
      | some n =>
        { res with
            hashes := dictSetHash res.hashes ht (dictSetFile (dictGetHash res.hashes ht) fn (hs, n)),
            files := res.files ++ [⟨fn, n, ht, hs⟩] }
      | none => res
    | _ => res

/-- One iteration of the `for line in content.split('\n')` loop of
`_parse_release_content` (lines 1031-1061), carrying the `current_hash`
variable alongside the `result` dictionary.  Each raw line is `.strip()`ped
first; the header scan compares the stripped line against `ht.value + ":"`;
the tuple branch requires `current_hash` to be set and the (already
stripped) line to start with a space; otherwise any non-empty line without a
leading space resets `current_hash`. -/
def releaseStep (st : Option HashType × ReleaseResult) (rawLine : Str) :
    Option HashType × ReleaseResult :=
  let line := pyStrip rawLine
  let res1 :=
    if line = "Acquire-By-Hash: yes".toList then
      { st.2 with acquire_by_hash := true }
    else st.2
  let hmatch := hashStrength.find? (fun ht => line == ht.valueStr ++ [':'])
  let cur := match hmatch with
    | some ht => some ht
    | none => st.1
  let res2 := match hmatch with
    | some ht => { res1 with hashes := dictSetHash res1.hashes ht [] }
    | none => res1
  if cur.isSome && headIsChar ' ' line then
    (cur, tupleUpdate cur res2 line)
  else if !line.isEmpty && !headIsChar ' ' line then
    (none, res2)
  else
    (cur, res2)

/-- `AptMirror._parse_release_content` (lines 1011-1063). -/
def parseReleaseContent (content : Str) : ReleaseResult :=
  ((splitOnChar '\n' content).foldl releaseStep (none, ⟨[], false, []⟩)).2

/-- The configuration fields of `Config` consulted by `download_file`. -/
structure FetchConfig where
  verify_checksums : Bool
  resume_partial_downloads : Bool
  retry_attempts : Nat
deriving DecidableEq, Repr

/-- Oracle facts about a file on disk: presence, `stat().st_size`, and whether
`_verify_checksum` of that file against the task's declared digest holds. -/
structure FileState where
  present : Bool
  size : Nat
  checksumOk : Bool
deriving DecidableEq, Repr

/-- Oracle outcome of one `session.get` plus `response.read()`:
either an exception (any HTTP error status raised by `raise_for_status`, or a
transport error), or a body of `len` bytes whose write leaves a file that
does (`checksumOk`) or does not pass `_verify_checksum`. -/
inductive HttpAttempt
  | error
  | body (len : Nat) (checksumOk : Bool)
deriving DecidableEq, Repr

/-- The `headers` variable of `download_file` on entry to the retry loop:
`empty` is `{}` (mode `wb`), `rangeFrom` is a `Range: bytes=start-` header
(mode `ab`), and `unbound` models the path on which no branch assigned
`headers` at all (size matches but checksum verification failed), so every
loop iteration raises `UnboundLocalError` before any network I/O. -/
inductive HeadersMode
  | empty
  | rangeFrom (start : Nat)
  | unbound
deriving DecidableEq, Repr

/-- The on-disk size of the staged file after one body write in the retry
loop: mode `ab` (a `Range` header was set) appends to the current size, mode
`wb` truncates and leaves exactly the body's length. -/
def attemptNewSize (mode : HeadersMode) (cur len : Nat) : Nat :=
  match mode with
  | .rangeFrom _ => cur + len
  | _ => len

/-- The retry loop of `download_file` (lines 677-716): the first argument of
the recursion counts remaining iterations of `for attempt in
range(retry_attempts)`, `i` is the attempt index (for the network oracle) and
`cur` the current on-disk size of the staged file (which the `ab` write mode
keeps growing across failed attempts).  An attempt raises when the GET errs,
when the written file's size differs from `task.size` (checked
unconditionally), or when a declared digest fails verification; the `except`
clause retries every such exception until the final attempt re-raises, which
the outer handler turns into `False`.  When `retry_attempts = 0` the loop
body never runs and the function falls through, returning Python `None`. -/
def attemptLoop (mode : HeadersMode) (expectedSize : Nat) (checkDigest : Bool)
    (net : Nat → HttpAttempt) : Nat → Nat → Nat → Option Bool
  | 0, _, _ => none
  | r + 1, i, cur =>
    if mode = .unbound then
      if r = 0 then some false else attemptLoop mode expectedSize checkDigest net r (i + 1) cur
    else
      match net i with
      | .error =>
        if r = 0 then some false else attemptLoop mode expectedSize checkDigest net r (i + 1) cur
      | .body len ok =>
        if attemptNewSize mode cur len = expectedSize then
          if checkDigest && !ok then
            if r = 0 then some false
            else attemptLoop mode expectedSize checkDigest net r (i + 1) (attemptNewSize mode cur len)
          else some true
        else
          if r = 0 then some false
          else attemptLoop mode expectedSize checkDigest net r (i + 1) (attemptNewSize mode cur len)

/-- Python truthiness of an optional string (`None` and `""` are falsy). -/
def pyTruthy : Option Str → Bool
  | none => false
  | some s => !s.isEmpty

/-- The skel-file pre-check of `download_file` (lines 650-674): `none` means
the function returned `True` early; `some (mode, start)` carries the
`headers` mode and the starting on-disk size into the retry loop. -/
def skelFetchMode (cfg : FetchConfig) (task : DownloadTask) (skel : FileState)
    (checkDigest : Bool) : Option (HeadersMode × Nat) :=
  if skel.present && cfg.resume_partial_downloads then
    if skel.size = task.size then
      if checkDigest then
        if skel.checksumOk then none
        else some (.unbound, skel.size)
      else none
    else if skel.size < task.size then some (.rangeFrom skel.size, skel.size)
    else some (.empty, 0)
  else some (.empty, 0)

/-- `AptMirror.download_file` (lines 586-722), with the filesystem and the
network abstracted into oracles.  `mirror` describes the file at
`mirror_path/canonical_path` (consulted only when `task.canonical_path` is
set), `skel` the staged file, `net` the per-attempt HTTP outcome.  The result
is `some b` for a Python `return b` and `none` for the implicit `return None`
reached when `retry_attempts = 0`. -/
def downloadFile (cfg : FetchConfig) (task : DownloadTask) (mirror skel : FileState)
    (net : Nat → HttpAttempt) : Option Bool :=
  let checkDigest := pyTruthy task.hashsum && cfg.verify_checksums
  let fetchPhase : Option Bool :=
    match skelFetchMode cfg task skel checkDigest with
    | none => some true
    | some (mode, start) => attemptLoop mode task.size checkDigest net cfg.retry_attempts 0 start
  if task.canonical_path.isSome && mirror.present then
    if checkDigest then
      if mirror.checksumOk then some true else fetchPhase
    else if task.size > 0 then
      if mirror.size = task.size then some true else fetchPhase
    else fetchPhase
  else fetchPhase

/-- Per-attempt outcome for the retry-policy view of the loop: a completed,
verified attempt (`ok`), an HTTP error status raised by
`response.raise_for_status()` (carrying the status code), or a transport
error. -/
inductive NetOutcome
  | ok
  | httpError (status : Nat)
  | transportError
deriving DecidableEq, Repr

/-- Whether the attempt completed (no exception reached the `except` clause). -/
def NetOutcome.isOk : NetOutcome → Bool
  | .ok => true
  | _ => false

/-- Helper for `attemptsPerformed`: `i` attempts are already done,
`r` loop iterations remain. -/
def attemptsGo (net : Nat → NetOutcome) : Nat → Nat → Nat
  | 0, i => i
  | r + 1, i => if (net i).isOk then i + 1 else attemptsGo net r (i + 1)

/-- Number of GET attempts the retry loop of `download_file` (lines 677-716)
performs: the loop stops early only when an attempt completes; its
`except Exception` clause catches and retries every failure alike —
`raise_for_status` turns any non-2xx status, 4xx included, into the same
retried exception. -/
def attemptsPerformed (retry : Nat) (net : Nat → NetOutcome) : Nat :=
  attemptsGo net retry 0

/-- Outcome of one `_create_diff` call: the returned boolean and whether the
generated diff file was deleted by `diff_path.unlink()`. -/
structure DiffResult where
  returned : Bool
  diffDeleted : Bool
deriving DecidableEq, Repr

/-- `AptMirror._create_diff` (lines 1499-1560).  `algorithm` is the
`config.diff_algorithm` string; `run_rc` is the external tool's return code,
`none` standing for the `FileNotFoundError` raised when the tool is missing;
`diffSize` and `newSize` are the `stat().st_size` values consulted by the
ratio test.  For `xdelta3` and `bsdiff` a successful run keeps the diff only
when `diff_size < new_size * max_diff_size_ratio`, deleting it otherwise; the
`rsync` branch returns `returncode == 0` with no size test at all. -/
def createDiff (algorithm : Str) (maxRatio : ℚ) (run_rc : Option Int)
    (diffSize newSize : Nat) : DiffResult :=
  if algorithm = "xdelta3".toList then
    match run_rc with
    | none => ⟨false, false⟩
    | some rc =>
      if rc = 0 then
        if (diffSize : ℚ) < (newSize : ℚ) * maxRatio then ⟨true, false⟩
        else ⟨false, true⟩
      else ⟨false, false⟩
  else if algorithm = "bsdiff".toList then
    match run_rc with
    | none => ⟨false, false⟩
    | some rc =>
      if rc = 0 then
        if (diffSize : ℚ) < (newSize : ℚ) * maxRatio then ⟨true, false⟩
        else ⟨false, true⟩
      else ⟨false, false⟩
  else if algorithm = "rsync".toList then
    match run_rc with
    | none => ⟨false, false⟩
    | some rc => ⟨decide (rc = 0), false⟩
  else ⟨false, false⟩

/-- The `write_versions` closure at the end of `_generate_diffs`
(lines 1491-1495): `open(versions_file, 'w')` truncates the existing file at
once and `json.dump` then writes the new serialisation sequentially.  `steps`
counts the primitive operations completed before a potential error: step 1 is
the truncating open, step `1 + k` has written the first `k` characters of
`newContent`; a run with `steps ≥ newContent.length + 1` completed.  The
result is the on-disk content of `var/file_versions.json` afterwards. -/
def writeVersionsFile (oldContent newContent : Str) (steps : Nat) : Str :=
  if steps = 0 then oldContent
  else newContent.take (steps - 1)

/-- One `(uri, distribution, components)` entry of `self.sources`. -/
structure SourceRepo where
  uri : Str
  distribution : Str
  components : List Str
deriving DecidableEq, Repr

/-- One `(arch, uri, distribution, components)` entry of `self.binaries`. -/
structure BinaryRepo where
  arch : Str
  uri : Str
  distribution : Str
  components : List Str
deriving DecidableEq, Repr

/-- The per-repository URL base of `_download_releases`: `uri/dists/dist/`
with components, `uri/dist/` for the flat layout. -/
def releaseUrlBase (uri distribution : Str) (components : List Str) : Str :=
  if !components.isEmpty then uri ++ "/dists/".toList ++ distribution ++ ['/']
  else uri ++ ['/'] ++ distribution ++ ['/']

/-- The three release-stage file names requested per repository. -/
def releaseFileNames : List Str :=
  ["InRelease".toList, "Release".toList, "Release.gpg".toList]

/-- The three `DownloadTask`s `_download_releases` builds for one URL base
(lines 939-945 and 957-963): note the canonical path is
`_sanitize_uri(url)` and no entry is made in `skip_clean`. -/
def releaseTasksForBase (tilde : Bool) (urlBase : Str) : List DownloadTask :=
  releaseFileNames.map (fun fn =>
    let url := urlBase ++ fn
    { url := url, canonical_path := some (sanitizeUri tilde url),
      stage := "release".toList })

/-- The task list `_download_releases` (lines 915-985) hands to
`download_batch`: source repositories first, then binary repositories.  The
accompanying `release_urls` attribute is exactly the `url` field of these
tasks, in order. -/
def downloadReleasesTasks (tilde : Bool) (sources : List SourceRepo)
    (binaries : List BinaryRepo) : List DownloadTask :=
  (sources.flatMap fun s =>
    releaseTasksForBase tilde (releaseUrlBase s.uri s.distribution s.components)) ++
  (binaries.flatMap fun b =>
    releaseTasksForBase tilde (releaseUrlBase b.uri b.distribution b.components))

/-- The release stage as a state transformer: `_download_releases` builds and
downloads its task list but contains no statement touching `skip_clean`, the
`download_queue`, or either alias table, so the `MirrorState` passes through
unchanged. -/
def downloadReleasesStage (tilde : Bool) (sources : List SourceRepo)
    (binaries : List BinaryRepo) (st : MirrorState) :
    List DownloadTask × MirrorState :=
  (downloadReleasesTasks tilde sources binaries, st)

/-- The scenario-1 binary repository list:
`deb http://r.example stable main` at architecture amd64. -/
def scenario1Binaries : List BinaryRepo :=
  [⟨"amd64".toList, "http://r.example".toList, "stable".toList, ["main".toList]⟩]

/-- A scenario-1 Release document: an SHA256 block advertising the
`Packages.gz` index as an indented `<digest> <size> <filename>` tuple,
terminated by a non-indented field. -/
def scenario1Release : Str :=
  ("Origin: r.example\nSHA256:\n aaaabbbbccccdddd 1234 main/binary-amd64/Packages.gz\nDate: today\n").toList

/-- A Release-stage task as `_download_releases` constructs it: declared size
defaults to 0 (unknown) and no digest is attached. -/
def relTask : DownloadTask :=
  { url := "http://r.example/dists/stable/Release".toList,
    canonical_path := some "r.example/dists/stable/Release".toList,
    stage := "release".toList }

/-- An absent file (fresh skel and mirror trees). -/
def freshFile : FileState := ⟨false, 0, false⟩

/-- The default fetch configuration: checksum verification and resume on,
`retry_attempts = 5`. -/
def cfg5 : FetchConfig := ⟨true, true, 5⟩

/-- The default fetch configuration with `set retry_attempts 0`. -/
def cfg0 : FetchConfig := ⟨true, true, 0⟩

/-! Helper lemmas about stripping, shared by the Release-parser results. -/

theorem headSpace_lstrip (l : Str) : headSpace (lstrip l) = false := by
  induction l with
  | nil => rfl
  | cons c cs ih =>
    by_cases h : pyIsSpace c = true
    · simpa [lstrip, List.dropWhile, h] using ih
    · simp [lstrip, List.dropWhile, Bool.not_eq_true] at h ⊢
      simp [headSpace, h]

theorem headSpace_rstrip (m : Str) (h : headSpace (rstrip m) = true) :
    headSpace m = true := by
  have hm : m = rstrip m ++ (m.reverse.takeWhile pyIsSpace).reverse := by
    have ht := List.takeWhile_append_dropWhile (p := pyIsSpace) (l := m.reverse)
    calc m = m.reverse.reverse := (List.reverse_reverse m).symm
    _ = (m.reverse.takeWhile pyIsSpace ++ m.reverse.dropWhile pyIsSpace).reverse := by
          rw [ht]
    _ = (m.reverse.dropWhile pyIsSpace).reverse ++ (m.reverse.takeWhile pyIsSpace).reverse := by
          rw [List.reverse_append]
    _ = rstrip m ++ (m.reverse.takeWhile pyIsSpace).reverse := rfl
  cases hr : rstrip m with
  | nil => rw [hr] at h; simp [headSpace] at h
  | cons a t =>
    rw [hr] at h hm
    rw [hm]
    simpa [headSpace] using h

theorem headSpace_pyStrip (l : Str) : headSpace (pyStrip l) = false := by
  by_contra hc
  have h1 : headSpace (pyStrip l) = true := by
    cases hh : headSpace (pyStrip l)
    · exact absurd hh hc
    · rfl
  have h2 := headSpace_rstrip (lstrip l) h1
  rw [headSpace_lstrip] at h2
  exact Bool.false_ne_true h2

theorem headIsChar_space_pyStrip (l : Str) : headIsChar ' ' (pyStrip l) = false := by
  have h := headSpace_pyStrip l
  cases hh : pyStrip l with
  | nil => rfl
  | cons c cs =>
    rw [hh] at h
    simp [headSpace] at h
    simp [headIsChar]
    intro hc
    rw [hc] at h
    simp [pyIsSpace] at h

theorem releaseStep_files (st : Option HashType × ReleaseResult) (raw : Str) :
    ((releaseStep st raw).2).files = st.2.files := by
  have hg := headIsChar_space_pyStrip raw
  unfold releaseStep
  simp only [hg, Bool.and_false, if_false, Bool.false_eq_true]
  split
  · split <;> split <;> rfl
  · split <;> split <;> rfl

theorem foldl_releaseStep_files (lines : List Str) :
    ∀ st : Option HashType × ReleaseResult,
      ((lines.foldl releaseStep st).2).files = st.2.files := by
  induction lines with
  | nil => intro st; rfl
  | cons l ls ih =>
    intro st
    rw [List.foldl_cons, ih (releaseStep st l), releaseStep_files]

/-- C1: the spec says each indented `<digest> <size> <filename>` tuple under a
bare `SHA512:`/`SHA256:`/`SHA1:`/`MD5Sum:` header yields an output entry
binding that filename to that digest and size.  The code strips every line
before testing `line.startswith(' ')`, and the bare header line itself
immediately resets `current_hash`, so the tuple branch is unreachable:
`_parse_release_content` emits no file entry for any document — on the
scenario document the SHA256 block is recognised but stays empty. -/
theorem C1_parse_release_no_entries :
    (∀ content : Str, (parseReleaseContent content).files = []) ∧
    (parseReleaseContent scenario1Release).hashes = [(HashType.SHA256, [])] := by
  constructor
  · intro content
    unfold parseReleaseContent
    rw [foldl_releaseStep_files]
  · decide

/-- C2: the spec says a task with expected size 0 carries no size assertion,
so a completion of any length is accepted.  The code's post-download check
`local_path.stat().st_size != task.size` is applied unconditionally, so a
fresh size-0 task (every Release-stage task is one) whose GET returns a
4-byte body fails the size check on every attempt and `download_file`
returns `False` — the mirror pre-check at line 638 guards `task.size > 0`,
showing that 0 was meant to mean "unknown". -/
theorem C2_size_zero_rejected :
    downloadFile cfg5 relTask freshFile freshFile (fun _ => HttpAttempt.body 4 true) =
      some false := by
  rfl

/-- C7: the spec (and the function's own docstring and its `# Preserve
protocol` comment) say the `scheme://` prefix keeps its double slash.  The
code first collapses every slash run — including the scheme's `//` — and the
follow-up `re.sub(r'^(\w+://)', r'\1', path)` replaces a (now impossible)
match by the very text it captured, a no-op: the result starts `http:/`. -/
theorem C7_collapse_scheme :
    removeDoubleSlashes false "http://r.example//dists/stable/Release".toList =
      "http:/r.example/dists/stable/Release".toList ∧
    removeDoubleSlashes false "http://r.example//dists/stable/Release".toList ≠
      "http://r.example/dists/stable/Release".toList := by
  decide

/-- C6 counterexample: `_sanitize_uri` is not idempotent on every input.  On
`a@b@c` the first application strips `a@` (the userinfo pattern `^[^@]+@`),
leaving `b@c`, which the second application strips again to `c`. -/
theorem C6_sanitize_cex :
    sanitizeUri false "a@b@c".toList = "b@c".toList ∧
    sanitizeUri false (sanitizeUri false "a@b@c".toList) = "c".toList ∧
    sanitizeUri false (sanitizeUri false "a@b@c".toList) ≠
      sanitizeUri false "a@b@c".toList := by
  decide

/-- C9 counterexample: the version database is not rewritten atomically.
`open(versions_file, 'w')` truncates the old file before any byte of the new
serialisation is written, so an error at the very first write step leaves an
empty file, not the previously stored version map. -/
theorem C9_write_versions_cex :
    writeVersionsFile "OLD".toList "NEW".toList 1 = [] ∧
    writeVersionsFile "OLD".toList "NEW".toList 1 ≠ "OLD".toList := by
  decide

/-- C10 counterexample: `download_file` does not always return a boolean.
With `retry_attempts = 0` and no pre-check hit, `for attempt in range(0)`
never runs its body and the function falls off the end of the `try` block,
returning Python `None` (modelled as `none`). -/
theorem C10_none_cex :
    downloadFile cfg0 relTask freshFile freshFile (fun _ => HttpAttempt.error) = none := by
  rfl

/-- C5 counterexample: an attempt failing with the permanent HTTP status 404
is retried like any other failure — with `retry_attempts = 5` the loop
performs all 5 GET attempts, not 1 as the claim requires. -/
theorem C5_retry_cex :
    attemptsPerformed 5 (fun _ => NetOutcome.httpError 404) = 5 ∧
    attemptsPerformed 5 (fun _ => NetOutcome.httpError 404) ≠ 1 := by
  decide

/-- C8 counterexample: the rsync branch of `_create_diff` applies no
size-ratio test.  A 1000-byte batch produced for a 10-byte new file (ratio
0.5, threshold 5 bytes) is retained and the call reports success, where the
claim requires deletion and failure. -/
theorem C8_rsync_cex :
    createDiff "rsync".toList (1 / 2 : ℚ) (some 0) 1000 10 = ⟨true, false⟩ ∧
    ¬ ((1000 : ℚ) < (10 : ℚ) * (1 / 2 : ℚ)) := by
  refine ⟨rfl, by norm_num⟩

/-- C3: the three branches of `_add_url_to_download`.  Without a (truthy)
digest or without a strongest algorithm, exactly one plain task at the
canonical path is enqueued; with a digest and per-file algorithm equal to
the strongest, exactly one task rewritten to `<dirname>/by-hash/<algo>/<digest>`
is enqueued, the canonical path is recorded under the hash path in
`hashsum_to_files`, and the hash path joins `skip_clean`; with a digest and a
differing per-file algorithm nothing is enqueued and the weaker hash path is
recorded under the canonical path in `file_to_hashsums`. -/
theorem C3_add_url_branches (tilde : Bool) (st : MirrorState) (url : Str) (size : Nat)
    (strongest_hash hash_type : Option HashType) (hashsum : Option Str) :
    (hashsum = none ∨ hashsum = some [] ∨ strongest_hash = none →
      addUrlToDownload tilde st url size strongest_hash hash_type hashsum =
        { st with
            skip_clean := canonicalOf tilde url :: st.skip_clean,
            download_queue :=
              { url := removeDoubleSlashes tilde url, size := size,
                canonical_path := some (canonicalOf tilde url),
                stage := "archive".toList } :: st.download_queue }) ∧
    (∀ a s, strongest_hash = some a → hash_type = some a → hashsum = some s → s ≠ [] →
      addUrlToDownload tilde st url size strongest_hash hash_type hashsum =
        { st with
            skip_clean := hashPathOf tilde url a s :: canonicalOf tilde url :: st.skip_clean,
            hashsum_to_files :=
              (hashPathOf tilde url a s, canonicalOf tilde url) :: st.hashsum_to_files,
            download_queue :=
              { url := hashUrlOf tilde url a s, size := size, hash_type := some a,
                hashsum := some s, canonical_path := some (canonicalOf tilde url),
                hash_path := some (hashPathOf tilde url a s),
                stage := "archive".toList } :: st.download_queue }) ∧
    (∀ a b s, strongest_hash = some a → hash_type = some b → b ≠ a → hashsum = some s →
        s ≠ [] →
      addUrlToDownload tilde st url size strongest_hash hash_type hashsum =
        { st with
            skip_clean := hashPathOf tilde url b s :: canonicalOf tilde url :: st.skip_clean,
            file_to_hashsums :=
              (canonicalOf tilde url, hashPathOf tilde url b s) :: st.file_to_hashsums }) := by
  refine ⟨?_, ?_, ?_⟩
  · rintro (rfl | rfl | rfl)
    · cases strongest_hash <;> rfl
    · cases strongest_hash <;> rfl
    · cases hashsum <;> rfl
  · rintro a s rfl rfl rfl hs
    cases s with
    | nil => exact absurd rfl hs
    | cons c cs =>
      simp [addUrlToDownload, canonicalOf, hashPathOf, hashUrlOf]
  · rintro a b s rfl rfl hba rfl hs
    cases s with
    | nil => exact absurd rfl hs
    | cons c cs =>
      simp [addUrlToDownload, canonicalOf, hashPathOf, hashUrlOf, hba]

/-- C3 witness: the by-hash branch evaluated on a concrete Packages.gz URL
with SHA256 as both the strongest and the per-file algorithm. -/
theorem C3_add_url_branches_witness :
    addUrlToDownload false mirrorState0 "http://h/d/Packages.gz".toList 10
        (some HashType.SHA256) (some HashType.SHA256) (some "ab12".toList) =
      { skip_clean := ["http:/h/d/by-hash/SHA256/ab12".toList, "http:/h/d/Packages.gz".toList],
        download_queue :=
          [{ url := "http:/h/d/by-hash/SHA256/ab12".toList, size := 10,
             hash_type := some HashType.SHA256, hashsum := some "ab12".toList,
             canonical_path := some "http:/h/d/Packages.gz".toList,
             hash_path := some "http:/h/d/by-hash/SHA256/ab12".toList,
             stage := "archive".toList }],
        hashsum_to_files :=
          [("http:/h/d/by-hash/SHA256/ab12".toList, "http:/h/d/Packages.gz".toList)],
        file_to_hashsums := [] } :=
  ((C3_add_url_branches false mirrorState0 "http://h/d/Packages.gz".toList 10
      (some HashType.SHA256) (some HashType.SHA256) (some "ab12".toList)).2.1
    HashType.SHA256 "ab12".toList rfl rfl rfl (by decide)).trans (by decide)

/-- C4 counterexample: in the scenario-1 run the release stage enqueues the
`Release` task (second of the three per-repository tasks) with canonical path
`r.example/dists/stable/Release`, yet leaves `skip_clean` empty — the stage
contains no `skip_clean.add` — and the release parser emits no file entries
for the scenario document, so the later stages (which are driven by those
entries) add nothing either: at the end of the run the Release canonical path
is not in `skip_clean`. -/
theorem C4_skip_clean_cex :
    ((downloadReleasesStage false [] scenario1Binaries mirrorState0).1.map
        (fun t => t.canonical_path)) =
      [some "r.example/dists/stable/InRelease".toList,
       some "r.example/dists/stable/Release".toList,
       some "r.example/dists/stable/Release.gpg".toList] ∧
    (downloadReleasesStage false [] scenario1Binaries mirrorState0).2.skip_clean = [] ∧
    (parseReleaseContent scenario1Release).files = [] := by
  refine ⟨by decide, rfl, by decide⟩

/-- C4 amended: `skip_clean` receives entries only through
`_add_url_to_download` (which always records the canonical path, plus the
hash path in the by-hash branch), through the index processor's per-package
add, and through `skip-clean` configuration lines; the release stage mutates
no engine table at all, so release-stage canonical paths never enter
`skip_clean`. -/
theorem C4_skip_clean_amended :
    (∀ (tilde : Bool) (sources : List SourceRepo) (binaries : List BinaryRepo)
        (st : MirrorState),
      (downloadReleasesStage tilde sources binaries st).2 = st) ∧
    (∀ (tilde : Bool) (st : MirrorState) (url : Str) (size : Nat)
        (strongest_hash hash_type : Option HashType) (hashsum : Option Str),
      canonicalOf tilde url ∈
        (addUrlToDownload tilde st url size strongest_hash hash_type hashsum).skip_clean) := by
  constructor
  · intro tilde sources binaries st
    rfl
  · intro tilde st url size strongest_hash hash_type hashsum
    cases hashsum with
    | none => simp [addUrlToDownload, canonicalOf]
    | some s =>
      cases strongest_hash with
      | none => simp [addUrlToDownload, canonicalOf]
      | some a =>
        by_cases hse : s.isEmpty
        · simp [addUrlToDownload, canonicalOf, hse]
        · by_cases hht : hash_type = some a
          · simp [addUrlToDownload, canonicalOf, hse, hht]
          · simp [addUrlToDownload, canonicalOf, hse, hht]

/-! Helper lemmas for the retry-count results. -/

theorem attemptsGo_le (net : Nat → NetOutcome) :
    ∀ r i, attemptsGo net r i ≤ i + r := by
  intro r
  induction r with
  | zero => intro i; simp [attemptsGo]
  | succ r ih =>
    intro i
    by_cases h : (net i).isOk = true
    · simp [attemptsGo, h]
    · simp only [attemptsGo, h, if_false, Bool.false_eq_true]
      have := ih (i + 1)
      omega

theorem attemptsGo_congr (net net' : Nat → NetOutcome)
    (h : ∀ i, (net i).isOk = (net' i).isOk) :
    ∀ r i, attemptsGo net r i = attemptsGo net' r i := by
  intro r
  induction r with
  | zero => intro i; rfl
  | succ r ih =>
    intro i
    simp only [attemptsGo, h i]
    by_cases hi : (net' i).isOk = true
    · simp [hi]
    · simp only [hi, if_false, Bool.false_eq_true]
      exact ih (i + 1)

theorem attemptsGo_allFail (net : Nat → NetOutcome)
    (h : ∀ i, (net i).isOk = false) :
    ∀ r i, attemptsGo net r i = i + r := by
  intro r
  induction r with
  | zero => intro i; simp [attemptsGo]
  | succ r ih =>
    intro i
    simp only [attemptsGo, h i, if_false, Bool.false_eq_true]
    rw [ih (i + 1)]
    omega

/-- C5 amended: the retry loop treats every failure identically — the number
of attempts performed never exceeds `retry_attempts`, depends only on which
attempts completed (never on the HTTP status or error kind), and when every
attempt fails (with any statuses whatsoever) all `retry_attempts` tries are
performed. -/
theorem C5_retry_amended (retry : Nat) (net net' : Nat → NetOutcome) :
    attemptsPerformed retry net ≤ retry ∧
    ((∀ i, (net i).isOk = (net' i).isOk) →
      attemptsPerformed retry net = attemptsPerformed retry net') ∧
    ((∀ i, (net i).isOk = false) → attemptsPerformed retry net = retry) := by
  refine ⟨?_, ?_, ?_⟩
  · have := attemptsGo_le net retry 0
    simpa [attemptsPerformed] using this
  · intro h
    exact attemptsGo_congr net net' h retry 0
  · intro h
    have := attemptsGo_allFail net h retry 0
    simpa [attemptsPerformed] using this

/-- C5 witness: three transport-error attempts and three 500-status attempts
drive the loop identically, and both exhaust all three tries. -/
theorem C5_retry_amended_witness :
    attemptsPerformed 3 (fun _ => NetOutcome.transportError) =
      attemptsPerformed 3 (fun _ => NetOutcome.httpError 500) ∧
    attemptsPerformed 3 (fun _ => NetOutcome.transportError) = 3 :=
  ⟨(C5_retry_amended 3 (fun _ => NetOutcome.transportError)
      (fun _ => NetOutcome.httpError 500)).2.1 (fun _ => rfl),
   (C5_retry_amended 3 (fun _ => NetOutcome.transportError)
      (fun _ => NetOutcome.httpError 500)).2.2 (fun _ => rfl)⟩

/-! Helper lemmas for the sanitiser results. -/

theorem stripScheme_of_no_match (l : Str) (h : schemeMatch l = false) :
    stripScheme l = l := by
  simp [stripScheme, h]

theorem stripAuth_of_no_match (l : Str) (h : authMatch l = false) :
    stripAuth l = l := by
  simp [stripAuth, h]

theorem tildeRepl_no_tilde (l : Str) : '~' ∉ tildeRepl l := by
  induction l with
  | nil => simp [tildeRepl]
  | cons c cs ih =>
    by_cases h : c = '~'
    · simp [tildeRepl, h]
      exact ih
    · simp [tildeRepl, h]
      exact ⟨fun he => h he.symm, ih⟩

theorem tildeRepl_id (l : Str) (h : '~' ∉ l) : tildeRepl l = l := by
  induction l with
  | nil => rfl
  | cons c cs ih =>
    simp at h
    rw [tildeRepl, if_neg (fun hc => h.1 hc.symm), ih h.2]

/-- C6 amended: `_sanitize_uri` is idempotent on every input whose sanitised
form matches neither the anchored scheme pattern `^\w+://` nor the anchored
userinfo pattern `^[^@]+@`.  Both conditions are needed: `a@b@c` sanitises
to `b@c`, which still matches the userinfo pattern (a second application
gives `c`), and `x@http://y` sanitises to `http://y`, which contains no `@`
but still matches the scheme pattern (a second application gives `y`).  On
such inputs a second application strips further. -/
theorem C6_sanitize_amended (tilde : Bool) (uri : Str)
    (h1 : schemeMatch (sanitizeUri tilde uri) = false)
    (h2 : authMatch (sanitizeUri tilde uri) = false) :
    sanitizeUri tilde (sanitizeUri tilde uri) = sanitizeUri tilde uri := by
  cases tilde with
  | false =>
    show stripAuth (stripScheme (sanitizeUri false uri)) = sanitizeUri false uri
    rw [stripScheme_of_no_match _ h1, stripAuth_of_no_match _ h2]
  | true =>
    show tildeRepl (stripAuth (stripScheme (sanitizeUri true uri))) = sanitizeUri true uri
    rw [stripScheme_of_no_match _ h1, stripAuth_of_no_match _ h2]
    exact tildeRepl_id _ (tildeRepl_no_tilde _)

/-- C6 witness: with tilde-encoding on, a URI with scheme, userinfo and a
tilde sanitises to `r.example/%7Erepo`, which is a fixed point. -/
theorem C6_sanitize_amended_witness :
    schemeMatch (sanitizeUri true "http://user@r.example/~repo".toList) = false ∧
    authMatch (sanitizeUri true "http://user@r.example/~repo".toList) = false ∧
    sanitizeUri true (sanitizeUri true "http://user@r.example/~repo".toList) =
      sanitizeUri true "http://user@r.example/~repo".toList :=
  ⟨by decide, by decide,
   C6_sanitize_amended true "http://user@r.example/~repo".toList (by decide) (by decide)⟩

/-- C8 amended: for `xdelta3` and `bsdiff` the diff is retained exactly when
the tool exits 0 and the diff size is strictly below
`max_diff_size_ratio × newSize`, and is deleted exactly when the tool exits 0
but the threshold fails; for `rsync` the batch is retained exactly when the
tool exits 0 and is never deleted — no size test is applied. -/
theorem C8_create_diff_amended (ratio : ℚ) (rc : Int) (diffSize newSize : Nat) :
    ((createDiff "xdelta3".toList ratio (some rc) diffSize newSize).returned = true ↔
      rc = 0 ∧ (diffSize : ℚ) < (newSize : ℚ) * ratio) ∧
    ((createDiff "xdelta3".toList ratio (some rc) diffSize newSize).diffDeleted = true ↔
      rc = 0 ∧ ¬ ((diffSize : ℚ) < (newSize : ℚ) * ratio)) ∧
    ((createDiff "bsdiff".toList ratio (some rc) diffSize newSize).returned = true ↔
      rc = 0 ∧ (diffSize : ℚ) < (newSize : ℚ) * ratio) ∧
    ((createDiff "bsdiff".toList ratio (some rc) diffSize newSize).diffDeleted = true ↔
      rc = 0 ∧ ¬ ((diffSize : ℚ) < (newSize : ℚ) * ratio)) ∧
    ((createDiff "rsync".toList ratio (some rc) diffSize newSize).returned = true ↔
      rc = 0) ∧
    (createDiff "rsync".toList ratio (some rc) diffSize newSize).diffDeleted = false := by
  have hx : createDiff "xdelta3".toList ratio (some rc) diffSize newSize =
      (if rc = 0 then
        if (diffSize : ℚ) < (newSize : ℚ) * ratio then ⟨true, false⟩ else ⟨false, true⟩
      else ⟨false, false⟩) := by
    unfold createDiff
    rw [if_pos rfl]
  have hb : createDiff "bsdiff".toList ratio (some rc) diffSize newSize =
      (if rc = 0 then
        if (diffSize : ℚ) < (newSize : ℚ) * ratio then ⟨true, false⟩ else ⟨false, true⟩
      else ⟨false, false⟩) := by
    unfold createDiff
    rw [if_neg (by decide), if_pos rfl]
  have hr : createDiff "rsync".toList ratio (some rc) diffSize newSize =
      ⟨decide (rc = 0), false⟩ := by
    unfold createDiff
    rw [if_neg (by decide), if_neg (by decide), if_pos rfl]
  rw [hx, hb, hr]
  split_ifs <;> simp_all

/-- C9 amended: the rewrite of `var/file_versions.json` is an in-place
truncating write, not a write-to-temp plus rename: after the truncating open
(step 1) the file holds exactly the written prefix of the new serialisation,
and only a run that completes every step yields the new map; the old map is
destroyed by the open itself. -/
theorem C9_write_versions_amended (oldContent newContent : Str) (steps : Nat)
    (h : 1 ≤ steps) :
    writeVersionsFile oldContent newContent steps = newContent.take (steps - 1) ∧
    writeVersionsFile oldContent newContent (newContent.length + 1) = newContent := by
  constructor
  · rw [writeVersionsFile, if_neg (by omega)]
  · rw [writeVersionsFile, if_neg (by omega)]
    simp

/-- C9 witness: interrupting after the open plus three written characters
leaves the three-character prefix of the new serialisation; the completed
write leaves the whole of it. -/
theorem C9_write_versions_amended_witness :
    writeVersionsFile "OLD".toList "NEWMAP".toList 4 = ("NEWMAP".toList).take 3 ∧
    writeVersionsFile "OLD".toList "NEWMAP".toList 7 = "NEWMAP".toList :=
  ⟨(C9_write_versions_amended "OLD".toList "NEWMAP".toList 4 (by decide)).1,
   (C9_write_versions_amended "OLD".toList "NEWMAP".toList 4 (by decide)).2⟩

/-! Helper lemmas for the totality of `download_file`. -/

theorem attemptLoop_succ_eq (mode : HeadersMode) (e : Nat) (c : Bool)
    (net : Nat → HttpAttempt) (r i cur : Nat) :
    attemptLoop mode e c net (r + 1) i cur =
      if mode = .unbound then
        if r = 0 then some false else attemptLoop mode e c net r (i + 1) cur
      else
        match net i with
        | .error =>
          if r = 0 then some false else attemptLoop mode e c net r (i + 1) cur
        | .body len ok =>
          if attemptNewSize mode cur len = e then
            if c && !ok then
              if r = 0 then some false
              else attemptLoop mode e c net r (i + 1) (attemptNewSize mode cur len)
            else some true
          else
            if r = 0 then some false
            else attemptLoop mode e c net r (i + 1) (attemptNewSize mode cur len) :=
  rfl

theorem attemptLoop_succ_isSome (mode : HeadersMode) (e : Nat) (c : Bool)
    (net : Nat → HttpAttempt) :
    ∀ r i cur, (attemptLoop mode e c net (r + 1) i cur).isSome = true := by
  intro r
  induction r with
  | zero =>
    intro i cur
    rw [attemptLoop_succ_eq]
    by_cases hm : mode = HeadersMode.unbound
    · rw [if_pos hm, if_pos rfl]
      rfl
    · rw [if_neg hm]
      cases net i with
      | error => rfl
      | body len ok =>
        dsimp only
        split_ifs <;> simp_all
  | succ r ih =>
    intro i cur
    rw [attemptLoop_succ_eq]
    by_cases hm : mode = HeadersMode.unbound
    · rw [if_pos hm, if_neg (show ¬(r + 1 = 0) by omega)]
      exact ih (i + 1) cur
    · rw [if_neg hm]
      cases net i with
      | error =>
        dsimp only
        rw [if_neg (show ¬(r + 1 = 0) by omega)]
        exact ih (i + 1) cur
      | body len ok =>
        dsimp only
        simp only [if_neg (show ¬(r + 1 = 0) by omega)]
        split_ifs with h1 h2
        · exact ih (i + 1) _
        · rfl
        · exact ih (i + 1) _

theorem attemptLoop_allError (mode : HeadersMode) (e : Nat) (c : Bool)
    (net : Nat → HttpAttempt) (hnet : ∀ i, net i = HttpAttempt.error) :
    ∀ r i cur, attemptLoop mode e c net (r + 1) i cur = some false := by
  intro r
  induction r with
  | zero =>
    intro i cur
    rw [attemptLoop_succ_eq, hnet i]
    by_cases hm : mode = HeadersMode.unbound
    · rw [if_pos hm, if_pos rfl]
    · rw [if_neg hm]
      rfl
  | succ r ih =>
    intro i cur
    rw [attemptLoop_succ_eq, hnet i]
    by_cases hm : mode = HeadersMode.unbound
    · rw [if_pos hm, if_neg (show ¬(r + 1 = 0) by omega)]
      exact ih (i + 1) cur
    · rw [if_neg hm]
      dsimp only
      rw [if_neg (show ¬(r + 1 = 0) by omega)]
      exact ih (i + 1) cur

/-- C10 amended: provided `retry_attempts ≥ 1`, `download_file` always
returns a boolean — every exception raised by pre-checks, attempts, or
verification is caught by the blanket handler — and when neither the mirror
pre-check nor the skel pre-check can satisfy the task and every attempt
errs, the returned boolean is `False`; only `retry_attempts = 0` produces
the non-boolean `None` return. -/
theorem C10_total_amended (cfg : FetchConfig) (task : DownloadTask)
    (mirror skel : FileState) (net : Nat → HttpAttempt)
    (h : 1 ≤ cfg.retry_attempts) :
    (downloadFile cfg task mirror skel net).isSome = true ∧
    (mirror.present = false → skel.present = false →
      (∀ i, net i = HttpAttempt.error) →
      downloadFile cfg task mirror skel net = some false) := by
  obtain ⟨r, hr⟩ : ∃ r, cfg.retry_attempts = r + 1 := ⟨cfg.retry_attempts - 1, by omega⟩
  constructor
  · unfold downloadFile
    dsimp only
    rw [hr]
    cases hsk : skelFetchMode cfg task skel (pyTruthy task.hashsum && cfg.verify_checksums) with
    | none =>
      split_ifs <;> rfl
    | some p =>
      obtain ⟨mode, start⟩ := p
      dsimp only
      split_ifs <;> first
        | rfl
        | exact attemptLoop_succ_isSome mode task.size
            (pyTruthy task.hashsum && cfg.verify_checksums) net r 0 start
  · intro hmir hskel hnet
    have hsk : skelFetchMode cfg task skel (pyTruthy task.hashsum && cfg.verify_checksums) =
        some (HeadersMode.empty, 0) := by
      simp [skelFetchMode, hskel]
    unfold downloadFile
    dsimp only
    rw [hsk, hmir, hr]
    simp only [Bool.and_false, Bool.false_eq_true, if_false]
    exact attemptLoop_allError HeadersMode.empty task.size
      (pyTruthy task.hashsum && cfg.verify_checksums) net hnet r 0 0

/-- C10 witness: with two retries, a fresh tree and a permanently failing
network, `download_file` returns the boolean `False` (and no exception
escapes). -/
theorem C10_total_amended_witness :
    (downloadFile ⟨true, true, 2⟩ relTask freshFile freshFile
        (fun _ => HttpAttempt.error)).isSome = true ∧
    downloadFile ⟨true, true, 2⟩ relTask freshFile freshFile
        (fun _ => HttpAttempt.error) = some false :=
  ⟨(C10_total_amended ⟨true, true, 2⟩ relTask freshFile freshFile
      (fun _ => HttpAttempt.error) (by decide)).1,
   (C10_total_amended ⟨true, true, 2⟩ relTask freshFile freshFile
      (fun _ => HttpAttempt.error) (by decide)).2 rfl rfl (fun _ => rfl)⟩

end AptMirror
